import Mathlib

/-!
Shallow embedding of the wallet RPC layer of ghost-core
(`src/wallet/rpcwallet.cpp`), together with theorems checking the
natural-language specification against the embedded code.

Amounts (`CAmount`) are 64-bit signed integers in the source; all
arithmetic on them in the embedded fragments stays far from the 64-bit
boundary, so they are modelled as `Int`.  Transaction ids (`uint256`)
and destinations (`CTxDestination`) are modelled as `Nat` identifiers:
the code only ever compares them for equality.  External collaborators
(the fee-bump engine, the wallet-side funding routine, the signing
capability) appear as oracle parameters, exactly at the call sites
where `rpcwallet.cpp` invokes them.
-/

namespace GhostWallet

/-- JSON-RPC error codes raised by the embedded fragments of
`rpcwallet.cpp` (`RPC_INVALID_PARAMETER`, `RPC_INVALID_ADDRESS_OR_KEY`,
`RPC_INVALID_REQUEST`, `RPC_WALLET_ERROR`, `RPC_MISC_ERROR`,
`RPC_METHOD_DEPRECATED`, `RPC_WALLET_UNLOCK_NEEDED`,
`RPC_WALLET_PASSPHRASE_INCORRECT`, `RPC_WALLET_WRONG_ENC_STATE`). -/
inductive RPCErrorCode where
  | invalidParameter
  | invalidAddressOrKey
  | invalidRequest
  | walletError
  | miscError
  | methodDeprecated
  | walletUnlockNeeded
  | walletPassphraseIncorrect
  | walletWrongEncState
  deriving DecidableEq, Repr

/-! ## Fee-bump strategy dispatch (`bumpfee`, rpcwallet.cpp:4283-4295) -/

/-- Output kinds a ghost-core transaction can carry
(standard/blinded/anonymized, per the confidential-output taxonomy). -/
inductive OutputKind where
  | standard
  | blinded
  | anon
  deriving DecidableEq, Repr

/-- The two bump strategies of the fee-bump engine. -/
inductive BumpStrategy where
  | feerateBump
  | totalFeeBump
  deriving DecidableEq, Repr

/-- rpcwallet.cpp:4289-4295: `if (IsParticlWallet(pwallet)) { res =
feebumper::CreateTotalBumpTransaction(...) } else { res =
feebumper::CreateRateBumpTransaction(...) }`.  The dispatch reads only
the wallet kind; the output kinds of the transaction being bumped are
passed through untouched (the parameter records what the transaction
contains, and the definition visibly ignores it). -/
def chooseBumpStrategy (isParticlWallet : Bool) (_txOutputKinds : List OutputKind) :
    BumpStrategy :=
  if isParticlWallet then .totalFeeBump else .feerateBump

/-! ## `settxfee` (rpcwallet.cpp:2897-2935) -/

/-- rpcwallet.cpp:2920-2934.  `CFeeRate(nAmount, 1000)` has
`nSatoshisPerK = nAmount`, so every `CFeeRate` comparison in the body
is a comparison of the underlying amounts.  Arguments are the parsed
amount, `chain().relayMinFee()`, wallet `m_min_fee` and
`m_default_max_tx_fee` (all as sat-per-kB amounts); the result is the
new `m_pay_tx_fee` on success. -/
def settxfee (nAmount relayMinFee walletMinFee maxTxFee : Int) :
    Except RPCErrorCode Int :=
  if nAmount = 0 then
    -- automatic selection
    .ok 0
  else if nAmount < relayMinFee then
    .error .invalidParameter
  else if nAmount < walletMinFee then
    .error .invalidParameter
  else if maxTxFee < nAmount then
    .error .invalidParameter
  else
    .ok nAmount

/-! ## `abandontransaction` (rpcwallet.cpp:2313-2353) -/

/-- The slice of a wallet ledger entry that decides abandonment
eligibility. -/
structure WalletTxEntry where
  depth : Int
  inMempool : Bool
  deriving DecidableEq, Repr

/-- Errors of `abandontransaction`; both are surfaced with code
`RPC_INVALID_ADDRESS_OR_KEY` but carry distinct messages
("Invalid or non-wallet transaction id" / "Transaction not eligible
for abandonment"). -/
inductive AbandonErr where
  | unknownTxid
  | notEligible
  deriving DecidableEq, Repr

/-- The RPC error code each `abandontransaction` failure is thrown
with (rpcwallet.cpp:2345 and 2349). -/
def rpcCodeOfAbandonErr : AbandonErr → RPCErrorCode := fun _ => .invalidAddressOrKey

/-- Modelled from the spec: `CWallet::AbandonTransaction` is not under
src (rpcwallet.cpp only calls it).  Spec section 4.1: `markAbandoned(txid)`
"fails with `NotEligible` unless depth ≤ 0 and the transaction is
absent from the broadcast pool". -/
def AbandonTransactionEligible (e : WalletTxEntry) : Bool :=
  decide (e.depth ≤ 0) && !e.inMempool

/-- rpcwallet.cpp:2341-2352: unknown txid (in neither the plain map
nor the HD record map, both merged into one association list here)
throws "Invalid or non-wallet transaction id"; an ineligible entry
throws "Transaction not eligible for abandonment". -/
def abandontransaction (wallet : List (Nat × WalletTxEntry)) (txid : Nat) :
    Except AbandonErr Unit :=
  match wallet.lookup txid with
  | none => .error .unknownTxid
  | some e =>
    if AbandonTransactionEligible e then .ok () else .error .notEligible

/-! ## `getbalances` (rpcwallet.cpp:2937-3054) -/

/-- The source `CHDWalletBalances`, restricted to the fields `getbalances` reads
in its Particl branch. -/
structure CHDWalletBalances where
  nPart : Int := 0
  nPartUnconf : Int := 0
  nPartImmature : Int := 0
  nPartStaked : Int := 0
  nBlind : Int := 0
  nBlindUnconf : Int := 0
  nAnon : Int := 0
  nAnonImmature : Int := 0
  nAnonUnconf : Int := 0
  deriving DecidableEq, Repr

/-- The "mine" object assembled by the Particl branch of
`getbalances` (rpcwallet.cpp:2991-3014).  `used`/`blindUsed` are
`none` when the avoid-reuse flag is off (the keys are not pushed). -/
structure BalancesMineParticl where
  trusted : Int
  untrustedPending : Int
  immature : Int
  staked : Int
  used : Option Int
  blindUsed : Option Int
  blindTrusted : Int
  blindUntrustedPending : Int
  anonTrusted : Int
  anonImmature : Int
  anonUntrustedPending : Int
  deriving DecidableEq, Repr

/-- rpcwallet.cpp:2984-3014.  `getBalances b` stands for
`CHDWallet::GetBalances(bal, b)`: with `b = true` (the default used at
line 2987) dirty/reused outputs are filtered out when the
avoid-reuse wallet flag is set; with `b = false` (line 3002) the full,
unfiltered balances are returned. -/
def getbalancesMineParticl (avoidReuseFlag : Bool)
    (getBalances : Bool → CHDWalletBalances) : BalancesMineParticl :=
  let bal := getBalances true
  let used :=
    if avoidReuseFlag then
      let fullBal := getBalances false
      some (fullBal.nPart + fullBal.nPartUnconf - bal.nPart - bal.nPartUnconf)
    else none
  let blindUsed :=
    if avoidReuseFlag then
      let fullBal := getBalances false
      some (fullBal.nBlind + fullBal.nBlindUnconf - bal.nBlind - bal.nBlindUnconf)
    else none
  { trusted := bal.nPart
    untrustedPending := bal.nPartUnconf
    immature := bal.nPartImmature
    staked := bal.nPartStaked
    used := used
    blindUsed := blindUsed
    blindTrusted := bal.nBlind
    blindUntrustedPending := bal.nBlindUnconf
    anonTrusted := bal.nAnon
    anonImmature := bal.nAnonImmature
    anonUntrustedPending := bal.nAnonUnconf }

/-- The source `CWallet::Balance`, restricted to the fields the non-Particl
branch of `getbalances` reads. -/
structure WalletBalance where
  mineTrusted : Int := 0
  mineUntrustedPending : Int := 0
  mineImmature : Int := 0
  deriving DecidableEq, Repr

/-- The "mine" object assembled by the non-Particl branch of
`getbalances` (rpcwallet.cpp:3030-3044). -/
structure BalancesMineBtc where
  trusted : Int
  untrustedPending : Int
  immature : Int
  used : Option Int
  deriving DecidableEq, Repr

/-- rpcwallet.cpp:3030-3044.  `getBalance b` stands for
`CWallet::GetBalance(0, b)` with `b` the avoid-reuse filter flag;
line 3030 uses the default (`true`), line 3040 passes `false`. -/
def getbalancesMineBtc (avoidReuseFlag : Bool)
    (getBalance : Bool → WalletBalance) : BalancesMineBtc :=
  let bal := getBalance true
  let used :=
    if avoidReuseFlag then
      let fullBal := getBalance false
      some (fullBal.mineTrusted + fullBal.mineUntrustedPending
        - bal.mineTrusted - bal.mineUntrustedPending)
    else none
  { trusted := bal.mineTrusted
    untrustedPending := bal.mineUntrustedPending
    immature := bal.mineImmature
    used := used }

/-! ## `walletpassphrase` and the relock timer (rpcwallet.cpp:2432-2549) -/

/-- The wallet state the unlock/relock machinery touches: the
encryption lock and `CWallet::nRelockTime`. -/
structure WalletLockState where
  locked : Bool
  relockTime : Int
  deriving DecidableEq, Repr

/-- rpcwallet.cpp:2494: `constexpr int64_t MAX_SLEEP_TIME = 100000000`. -/
def MAX_SLEEP_TIME : Int := 100000000

/-- rpcwallet.cpp:2457-2548.  Inputs abstract the collaborators:
`crypted` is `IsCrypted()`, `passEmpty` whether the supplied
passphrase is empty, `passOk` the outcome of `Unlock(strWalletPass)`,
`now` is `GetTime()`.  On success the result carries the new lock
state and, when a relock timer is scheduled (rpcwallet.cpp:2527-2540),
the `relock_time` value captured by the timer callback; the
`nSleepTime = 0 && stakingOnly` branch (rpcwallet.cpp:2541-2546)
erases the timer and resets `nRelockTime` to 0. -/
def walletpassphrase (crypted passEmpty passOk stakingOnly : Bool)
    (timeout now : Int) (_st : WalletLockState) :
    Except RPCErrorCode (WalletLockState × Option Int) :=
  if !crypted then
    .error .walletWrongEncState
  else if timeout < 0 then
    .error .invalidParameter
  else
    let nSleepTime := if MAX_SLEEP_TIME < timeout then MAX_SLEEP_TIME else timeout
    if passEmpty then
      .error .invalidParameter
    else if !passOk then
      .error .walletPassphraseIncorrect
    else
      -- rpcwallet.cpp:2515-2516: stamp nRelockTime and capture it
      let relockTime := now + nSleepTime
      if 0 < nSleepTime ∨ ¬ stakingOnly then
        .ok ({ locked := false, relockTime := relockTime }, some relockTime)
      else
        .ok ({ locked := false, relockTime := 0 }, none)

/-- rpcwallet.cpp:2532-2539: the `rpcRunLater` callback.  `captured`
is the `relock_time` copied into the closure at scheduling time:
"Skip if this is not the most recent rpcRunLater callback." -/
def relockTimerFire (captured : Int) (st : WalletLockState) : WalletLockState :=
  if st.relockTime ≠ captured then st
  else { locked := true, relockTime := 0 }

/-! ## `SetFeeEstimateMode` (rpcwallet.cpp:269-294) -/

/-- The `FeeEstimateMode` values accepted by `FeeModeFromString`. -/
inductive FeeEstimateMode where
  | unset
  | economical
  | conservative
  | btcPerKB
  | satPerB
  deriving DecidableEq, Repr

/-- An `estimate_mode` string after the `FeeModeFromString` attempt:
either a recognised mode or an unrecognised string. -/
inductive FeeModeInput where
  | parsed (m : FeeEstimateMode)
  | unrecognised
  deriving DecidableEq, Repr

/-- The source `CCoinControl`, restricted to the fields the embedded fragments
write. -/
structure CoinControl where
  feeMode : FeeEstimateMode := .unset
  feerate : Option Int := none
  confirmTarget : Option Int := none
  signalRbf : Option Bool := none
  allowWatchOnly : Bool := false
  destChange : Option Nat := none
  changeType : Option Nat := none
  overrideFeeRate : Bool := false
  addInputs : Bool := true
  deriving DecidableEq, Repr

/-- wallet.h: `WALLET_BTC_KB_TO_SAT_B = COIN / 1000` (sat/B to sat/kB
conversion divisor used at rpcwallet.cpp:284). -/
def WALLET_BTC_KB_TO_SAT_B : Int := 100000

/-- rpcwallet.cpp:269-294.  `estimateParam` is the already-parsed
amount/target argument (`AmountFromValue` / integer conversion happen
at the caller boundary); range validation of a confirmation target
(`ParseConfirmTarget`, rpc/util.cpp) lives outside src and is treated
as accepting, which only matters for which extra `InvalidParameter`
paths exist. -/
def SetFeeEstimateMode (cc : CoinControl) (estimateMode : Option FeeModeInput)
    (estimateParam : Option Int) : Except RPCErrorCode CoinControl :=
  let parsedMode : Except RPCErrorCode CoinControl :=
    match estimateMode with
    | none => .ok cc
    | some .unrecognised => .error .invalidParameter
    | some (.parsed m) => .ok { cc with feeMode := m }
  match parsedMode with
  | .error e => .error e
  | .ok cc =>
    if cc.feeMode = .btcPerKB ∨ cc.feeMode = .satPerB then
      match estimateParam with
      | none => .error .invalidParameter
      | some amt =>
        let feeRate := if cc.feeMode = .satPerB then amt / WALLET_BTC_KB_TO_SAT_B else amt
        let cc := { cc with feerate := some feeRate }
        -- default RBF to true for explicit fee rate modes
        let cc := if cc.signalRbf = none then { cc with signalRbf := some true } else cc
        .ok cc
    else
      match estimateParam with
      | none => .ok cc
      | some t => .ok { cc with confirmTarget := some t }

/-! ## `bumpfee` (rpcwallet.cpp:4162-4356) -/

/-- The `options` object of `bumpfee` after JSON type checking
(rpcwallet.cpp:4241-4249).  `confTargetOld` is the deprecated
`confTarget` key, `confTargetNew` the `conf_target` key; `feeRate` is
the `AmountFromValue`-parsed `fee_rate`. -/
structure BumpfeeOptions where
  confTargetOld : Option Int := none
  confTargetNew : Option Int := none
  feeRate : Option Int := none
  replaceable : Option Bool := none
  estimateMode : Option FeeModeInput := none
  deriving DecidableEq, Repr

/-- The `feebumper::Result` enum (what the switch at rpcwallet.cpp:4297
matches on). -/
inductive FeebumperResult where
  | resOk
  | resInvalidAddressOrKey
  | resInvalidRequest
  | resInvalidParameter
  | resWalletError
  | resMiscError
  deriving DecidableEq, Repr

/-- Wallet-side collaborators of `bumpfee`, abstracted at exactly the
call sites of rpcwallet.cpp: `bumpCreate` is the outcome of
`feebumper::CreateTotalBumpTransaction` / `CreateRateBumpTransaction`
(line 4289-4295), `signOk` the outcome of `feebumper::SignTransaction`
(line 4321), `commitOk` of `feebumper::CommitTransaction` (line
4326). -/
structure BumpfeeEnv where
  disablePrivateKeys : Bool
  rpcEnableDeprecated : Bool
  walletLocked : Bool
  isParticl : Bool
  unlockForStakingOnly : Bool
  bumpCreate : BumpStrategy → CoinControl → FeebumperResult
  signOk : Bool
  commitOk : Bool

/-- The two success shapes of `bumpfee`: a committed txid, or a
base64 PSBT (rpcwallet.cpp:4320-4340). -/
inductive BumpfeeOutcome where
  | signedTxid
  | psbt
  deriving DecidableEq, Repr

/-- rpcwallet.cpp:4239-4274: option parsing of `bumpfee`.  `cc`
enters with `m_signal_bip125_rbf = true` already set (line 4237). -/
def bumpfeeParseOptions (cc : CoinControl) (opts : BumpfeeOptions) :
    Except RPCErrorCode CoinControl :=
  if opts.confTargetOld.isSome ∧ opts.confTargetNew.isSome then
    .error .invalidParameter
  else
    let confTarget := if opts.confTargetOld.isSome then opts.confTargetOld else opts.confTargetNew
    let step : Except RPCErrorCode CoinControl :=
      match confTarget with
      | some t =>
        if opts.feeRate.isSome then .error .invalidParameter
        else .ok { cc with confirmTarget := some t }
      | none =>
        match opts.feeRate with
        | some r =>
          if r ≤ 0 then .error .invalidParameter
          else .ok { cc with feerate := some r }
        | none => .ok cc
    match step with
    | .error e => .error e
    | .ok cc =>
      let cc :=
        match opts.replaceable with
        | some b => { cc with signalRbf := some b }
        | none => cc
      SetFeeEstimateMode cc opts.estimateMode confTarget

/-- rpcwallet.cpp:4276-4351: the tail of the `bumpfee` handler, from
`EnsureWalletIsUnlocked` (line 4281) through the strategy dispatch and
result switch (lines 4289-4313) to signing and committing (lines
4320-4328). -/
def bumpfeeFinish (wantPsbt : Bool) (env : BumpfeeEnv) (cc : CoinControl)
    (txOutputKinds : List OutputKind) : Except RPCErrorCode BumpfeeOutcome :=
  if env.walletLocked ∨ (env.isParticl ∧ env.unlockForStakingOnly) then
    .error .walletUnlockNeeded
  else
    -- rpcwallet.cpp:4289-4295: strategy dispatch and bump creation
    match env.bumpCreate (chooseBumpStrategy env.isParticl txOutputKinds) cc with
    | .resInvalidAddressOrKey => .error .invalidAddressOrKey
    | .resInvalidRequest => .error .invalidRequest
    | .resInvalidParameter => .error .invalidParameter
    | .resWalletError => .error .walletError
    | .resMiscError => .error .miscError
    | .resOk =>
      if ¬ wantPsbt then
        if ¬ env.signOk then .error .walletError
        else if ¬ env.commitOk then .error .walletError
        else .ok .signedTxid
      else
        .ok .psbt

/-- rpcwallet.cpp:4162-4351: the `bumpfee` / `psbtbumpfee` handler.
`wantPsbtMethod` is `request.strMethod == "psbtbumpfee"`;
`txOutputKinds` records the output kinds of the transaction being
bumped (the handler never reads them; see `chooseBumpStrategy`). -/
def bumpfee (wantPsbtMethod : Bool) (env : BumpfeeEnv)
    (options : Option BumpfeeOptions) (txOutputKinds : List OutputKind) :
    Except RPCErrorCode BumpfeeOutcome :=
  -- rpcwallet.cpp:4224-4229: deprecation gate for privkey-disabled wallets
  if env.disablePrivateKeys ∧ ¬ wantPsbtMethod ∧ ¬ env.rpcEnableDeprecated then
    .error .methodDeprecated
  else
    let wantPsbt := wantPsbtMethod || env.disablePrivateKeys
    let cc : CoinControl :=
      { allowWatchOnly := env.disablePrivateKeys, signalRbf := some true }
    let ccParsed : Except RPCErrorCode CoinControl :=
      match options with
      | none => .ok cc
      | some opts => bumpfeeParseOptions cc opts
    match ccParsed with
    | .error e => .error e
    | .ok cc => bumpfeeFinish wantPsbt env cc txOutputKinds

/-- The error taxonomy the spec assigns to `bumpfee` failures. -/
def specBumpfeeErrorCodes : List RPCErrorCode :=
  [.invalidAddressOrKey, .invalidRequest, .invalidParameter, .walletError]

/-- Every error code the embedded `bumpfee` can actually produce. -/
def bumpfeeReachableErrorCodes : List RPCErrorCode :=
  [.invalidAddressOrKey, .invalidRequest, .invalidParameter, .walletError,
   .methodDeprecated, .walletUnlockNeeded, .miscError]

/-- A concrete `bumpfee` environment: private keys disabled, the
deprecated `bumpfee`-on-watchonly path not re-enabled. -/
def bumpfeeDeprecatedEnv : BumpfeeEnv :=
  { disablePrivateKeys := true
    rpcEnableDeprecated := false
    walletLocked := false
    isParticl := false
    unlockForStakingOnly := false
    bumpCreate := fun _ _ => .resOk
    signOk := true
    commitOk := true }

/-! ## The fee-bump engine itself (modelled) -/

/-- The slice of the original ledger entry the bump engine gates on. -/
structure OriginalTx where
  knownToWallet : Bool
  depth : Int
  signalsRbf : Bool
  hasDescendantSpend : Bool
  inputs : List (Nat × Nat)
  fee : Int
  deriving DecidableEq, Repr

/-- The resolved bump request: `newTotalFee` is the absolute fee the
resolved rate/target implies for the replacement, `incrementalRelayFee`
is one relay increment for the transaction size, `changeValue` the
value sitting in the original change output, `extraInputs` the coins
the engine would add when the change cannot absorb the increase. -/
structure BumpRequest where
  newTotalFee : Int
  incrementalRelayFee : Int
  changeValue : Int
  extraInputs : List (Nat × Nat)
  deriving DecidableEq, Repr

/-- The replacement transaction produced by a successful bump. -/
structure ReplacementTx where
  inputs : List (Nat × Nat)
  fee : Int
  deriving DecidableEq, Repr

/-- Modelled from the spec: `feebumper::CreateTotalBumpTransaction` and
`feebumper::CreateRateBumpTransaction` (wallet/feebumper.cpp) are not
under src; only their caller `bumpfee` is.  Modelled from spec
section 4.6 — eligibility gate (entry exists, unconfirmed, explicitly
replaceable, no spent/confirmed descendant conflicts), "Both require
the new fee to exceed the old fee by at least one additional relay
increment" — and from the in-source `bumpfee` help text
(rpcwallet.cpp:4170-4177): "The command will pay the additional fee by
reducing change outputs or adding inputs when necessary", "All inputs
in the original transaction will be included in the replacement
transaction", "the new fee rate must be high enough to pay an
additional new relay fee". -/
def CreateBumpTransaction (orig : OriginalTx) (req : BumpRequest) :
    Except FeebumperResult ReplacementTx :=
  if ¬ orig.knownToWallet then
    .error .resInvalidAddressOrKey
  else if 0 < orig.depth ∨ ¬ orig.signalsRbf ∨ orig.hasDescendantSpend then
    .error .resInvalidRequest
  else if req.newTotalFee < orig.fee + req.incrementalRelayFee then
    .error .resInvalidParameter
  else if req.changeValue < req.newTotalFee - orig.fee ∧ req.extraInputs = [] then
    .error .resWalletError
  else
    .ok { inputs := orig.inputs ++ req.extraInputs, fee := req.newTotalFee }

/-! ## Coin selection and the send/fund paths (`SendMoney`,
rpcwallet.cpp:524-542; `FundTransaction`, rpcwallet.cpp:3842-3970) -/

/-- The source `CRecipient`: destination script, amount, subtract-fee flag. -/
structure Recipient where
  scriptPubKey : Nat
  amount : Int
  subtractFeeFromAmount : Bool
  deriving DecidableEq, Repr

/-- A spendable coin of the Coin Store snapshot. -/
structure Coin where
  outpoint : Nat × Nat
  value : Int
  deriving DecidableEq, Repr

/-- One step of the pseudo-random stream a `FastRandomContext` yields
(any seed-indexed stream works for the theorems; this one is a small
linear congruential step). -/
def fastRandomNext (s : Nat) : Nat :=
  (75 * s + 74) % 65536

/-- The `std::shuffle(recipients.begin(), recipients.end(),
FastRandomContext())` call of `SendMoney` (rpcwallet.cpp:529),
modelled as a seed-driven insertion shuffle: each element is inserted
at a position drawn from the random stream.  The seed stands for the
operating-system entropy a fresh `FastRandomContext` is seeded with —
a new draw on every call. -/
def shuffleInsert (s : Nat) (acc : List Recipient) :
    List Recipient → List Recipient
  | [] => acc
  | x :: xs =>
    shuffleInsert (fastRandomNext s) (acc.insertIdx (s % (acc.length + 1)) x) xs

/-- Shuffle a recipient list with the random stream seeded by `s`. -/
def shuffleList (s : Nat) (xs : List Recipient) : List Recipient :=
  shuffleInsert s [] xs

/-- Modelled from the spec: the serialized-size estimate used for the
fee computation (`CWallet::CreateTransaction` internals, not under
src).  Spec section 4.3 step 3: fee is "derived from the resolved fee
rate × estimated serialized size"; the estimate counts a fixed
overhead plus per-input and per-output costs. -/
def estimatedTxSize (nInputs nOutputs : Nat) : Nat :=
  10 + 148 * nInputs + 34 * nOutputs

/-- Fee for a serialized size at `feeRatePerK` sat per 1000 bytes. -/
def feeForSize (feeRatePerK : Int) (size : Nat) : Int :=
  feeRatePerK * size / 1000

/-- Modelled from the spec: the coin-selection loop of
`CWallet::CreateTransaction` (not under src).  Spec section 4.3
step 2: enumerate eligible coins and "choose a subset covering target
value + estimated fee, preferring deterministic, reproducible
selection for given input ordering".  Coins are consumed in snapshot
order until the accumulated value covers the target plus the fee for
the current input count (one change output included in the size). -/
def selectCoinsGreedy (feeRatePerK target : Int) (nOutputs : Nat) :
    List Coin → List Coin → Int → Option (List Coin × Int)
  | avail, acc, accValue =>
    let fee := feeForSize feeRatePerK (estimatedTxSize acc.length (nOutputs + 1))
    if target + fee ≤ accValue then
      some (acc.reverse, fee)
    else
      match avail with
      | [] => none
      | c :: rest =>
        selectCoinsGreedy feeRatePerK target nOutputs rest (c :: acc) (accValue + c.value)

/-- Modelled from the spec: `CWallet::CreateTransaction` reduced to
select-and-fund (spec section 4.3): the selection target is the sum of
the recipient amounts, the output count the number of recipients. -/
def CreateTransactionModel (coins : List Coin) (recipients : List Recipient)
    (feeRatePerK : Int) : Option (List Coin × Int) :=
  selectCoinsGreedy feeRatePerK ((recipients.map (·.amount)).sum)
    recipients.length coins [] 0

/-- rpcwallet.cpp:524-542 (`SendMoney`), restricted to what reaches the
coin selector: the recipient list is shuffled with a fresh
`FastRandomContext` (line 529, seed `s`), then handed to
`CreateTransaction`.  Returns the selected inputs and the fee. -/
def SendMoneySelect (coins : List Coin) (feeRatePerK : Int) (s : Nat)
    (recipients : List Recipient) : Option (List Coin × Int) :=
  CreateTransactionModel coins (shuffleList s recipients) feeRatePerK

/-- The funding path (rpcwallet.cpp:3842-3970 feeding
`CWallet::FundTransaction`): same selection, plus a change position —
the caller-requested one, or a random one when unspecified (spec
section 4.3 step 4: "at the policy's requested position or a
randomized position").  The random draw uses the same seed stream. -/
def FundTransactionSelect (coins : List Coin) (recipients : List Recipient)
    (feeRatePerK : Int) (changePosition : Option Nat) (s : Nat) :
    Option (List Coin × Int × Nat) :=
  match CreateTransactionModel coins recipients feeRatePerK with
  | none => none
  | some (sel, fee) =>
    let pos :=
      match changePosition with
      | some p => p
      | none => fastRandomNext s % (recipients.length + 1)
    some (sel, fee, pos)

/-! ## `ParseRecipients` (rpcwallet.cpp:494-522) -/

/-- One entry of the `address:amount` object handed to
`ParseRecipients`: the `DecodeDestination` result (`none` = invalid
address string), the parsed amount, and whether the address appears in
the subtract-fee-from list. -/
structure RecipientInput where
  decodedDest : Option Nat
  amount : Int
  subtractFee : Bool
  deriving DecidableEq, Repr

/-- The two throw sites of `ParseRecipients`
(rpcwallet.cpp:500 and 504). -/
inductive ParseRecipientsErr where
  | invalidAddress
  | duplicatedAddress
  deriving DecidableEq, Repr

/-- The RPC error code each `ParseRecipients` failure is thrown with:
`RPC_INVALID_ADDRESS_OR_KEY` for an undecodable address,
`RPC_INVALID_PARAMETER` for a duplicated one. -/
def rpcCodeOfParseRecipientsErr : ParseRecipientsErr → RPCErrorCode
  | .invalidAddress => .invalidAddressOrKey
  | .duplicatedAddress => .invalidParameter

/-- rpcwallet.cpp:494-522, with `seen` the `destinations` set. -/
def ParseRecipientsGo (seen : List Nat) :
    List RecipientInput → Except ParseRecipientsErr (List Recipient)
  | [] => .ok []
  | r :: rest =>
    match r.decodedDest with
    | none => .error .invalidAddress
    | some d =>
      if d ∈ seen then .error .duplicatedAddress
      else
        match ParseRecipientsGo (d :: seen) rest with
        | .error e => .error e
        | .ok tl =>
          .ok ({ scriptPubKey := d, amount := r.amount,
                 subtractFeeFromAmount := r.subtractFee } :: tl)

/-- Entry point `ParseRecipients` with an initially empty destination set. -/
def ParseRecipients (items : List RecipientInput) :
    Except ParseRecipientsErr (List Recipient) :=
  ParseRecipientsGo [] items

/-! ## `FundTransaction` option validation (rpcwallet.cpp:3842-3970) -/

/-- The `options` object of `FundTransaction` after JSON type
checking.  `changeAddress`/`changeType` carry the decode result of the
supplied string (`some none` = present but undecodable). -/
structure FundOptions where
  addInputs : Option Bool := none
  changeAddress : Option (Option Nat) := none
  changePosition : Option Int := none
  changeType : Option (Option Nat) := none
  includeWatching : Bool := false
  lockUnspents : Bool := false
  feeRate : Option Int := none
  subtractFeeFromOutputs : List Int := []
  replaceable : Option Bool := none
  confTarget : Option Int := none
  estimateMode : Option FeeModeInput := none
  deriving DecidableEq, Repr

/-- The wallet state `FundTransaction` can mutate through
`CWallet::FundTransaction` (coin locks via `lockUnspents`, plus
whatever the funding routine itself touches — abstracted as one
opaque-to-the-caller value). -/
structure FundWalletState where
  lockedCoins : List (Nat × Nat)
  deriving DecidableEq, Repr

/-- rpcwallet.cpp:3954-3963: validation of `subtractFeeFromOutputs`
positions against the output count. -/
def validateSubtractFeePositions (nOutputs : Nat) :
    List Int → List Int → Except RPCErrorCode (List Int)
  | seen, [] => .ok seen
  | seen, pos :: rest =>
    if pos ∈ seen then .error .invalidParameter
    else if pos < 0 then .error .invalidParameter
    else if (nOutputs : Int) ≤ pos then .error .invalidParameter
    else validateSubtractFeePositions nOutputs (pos :: seen) rest

/-- rpcwallet.cpp:3842-3970.  `walletFund` stands for
`CWallet::FundTransaction` (line 3967), the only call that mutates
wallet state; it returns the mutated state and the fee on success.
The returned pair carries the wallet state alongside the RPC result,
so error paths visibly leave the state untouched. -/
def FundTransactionRPC
    (walletFund : FundWalletState → CoinControl → Option (FundWalletState × Int))
    (st : FundWalletState) (options : Option FundOptions) (nOutputs : Nat) :
    FundWalletState × Except RPCErrorCode Int :=
  let parse : Except RPCErrorCode CoinControl :=
    match options with
    | none => .ok {}
    | some opts =>
      let cc : CoinControl := {}
      let cc := match opts.addInputs with
        | some b => { cc with addInputs := b }
        | none => cc
      -- rpcwallet.cpp:3889-3898: changeAddress decode
      let step1 : Except RPCErrorCode CoinControl :=
        match opts.changeAddress with
        | none => .ok cc
        | some none => .error .invalidAddressOrKey
        | some (some dest) => .ok { cc with destChange := some dest }
      match step1 with
      | .error e => .error e
      | .ok cc =>
        -- rpcwallet.cpp:3904-3913: change_type, exclusive with changeAddress
        let step2 : Except RPCErrorCode CoinControl :=
          match opts.changeType with
          | none => .ok cc
          | some ct =>
            if opts.changeAddress.isSome then .error .invalidParameter
            else match ct with
              | none => .error .invalidAddressOrKey
              | some t => .ok { cc with changeType := some t }
        match step2 with
        | .error e => .error e
        | .ok cc =>
          -- rpcwallet.cpp:3915-3916: includeWatching
          let cc := { cc with allowWatchOnly := opts.includeWatching }
          -- rpcwallet.cpp:3922-3932: feeRate, exclusive with conf_target
          -- and estimate_mode
          let step3 : Except RPCErrorCode CoinControl :=
            match opts.feeRate with
            | none => .ok cc
            | some r =>
              if opts.confTarget.isSome then .error .invalidParameter
              else if opts.estimateMode.isSome then .error .invalidParameter
              else .ok { cc with feerate := some r, overrideFeeRate := true }
          match step3 with
          | .error e => .error e
          | .ok cc =>
            let cc := match opts.replaceable with
              | some b => { cc with signalRbf := some b }
              | none => cc
            SetFeeEstimateMode cc opts.estimateMode opts.confTarget
  match parse with
  | .error e => (st, .error e)
  | .ok cc =>
    -- rpcwallet.cpp:3947-3949
    if nOutputs = 0 then (st, .error .invalidParameter)
    else
      -- rpcwallet.cpp:3951-3952: -1 is the no-position sentinel
      let changePosBad : Bool :=
        match options with
        | none => false
        | some opts =>
          match opts.changePosition with
          | none => false
          | some p => decide (p ≠ -1 ∧ (p < 0 ∨ (nOutputs : Int) < p))
      if changePosBad then (st, .error .invalidParameter)
      else
        let sfOk :=
          match options with
          | none => Except.ok ([] : List Int)
          | some opts => validateSubtractFeePositions nOutputs [] opts.subtractFeeFromOutputs
        match sfOk with
        | .error e => (st, .error e)
        | .ok _ =>
          -- rpcwallet.cpp:3967: the wallet-side funding call
          match walletFund st cc with
          | none => (st, .error .walletError)
          | some (st2, fee) => (st2, .ok fee)

/-! ## `lockunspent` (rpcwallet.cpp:2689-2843) -/

/-- The wallet state `lockunspent` reads and writes: output counts per
known transaction (`mapWallet` and the HD `mapRecords` merged into one
association list), the spent-outpoint set (`IsSpent`), and the
locked-coin set (`setLockedCoins`). -/
structure LockWalletState where
  txOutCounts : List (Nat × Nat)
  spentOutpoints : List (Nat × Nat)
  lockedCoins : List (Nat × Nat)
  deriving DecidableEq, Repr

/-- The throw sites of the `lockunspent` validation loop
(rpcwallet.cpp:2776-2825), one per message. -/
inductive LockunspentErr where
  | voutNegative
  | unknownTransaction
  | voutOutOfBounds
  | expectedUnspent
  | expectedLocked
  | alreadyLocked
  deriving DecidableEq, Repr

/-- Every `lockunspent` validation failure is thrown with
`RPC_INVALID_PARAMETER`. -/
def rpcCodeOfLockunspentErr : LockunspentErr → RPCErrorCode := fun _ => .invalidParameter

/-- rpcwallet.cpp:2765-2828: validation of one `{txid, vout}` entry
against the unmutated wallet state. -/
def validateLockOutpoint (st : LockWalletState) (fUnlock : Bool)
    (p : Nat × Int) : Except LockunspentErr (Nat × Nat) :=
  if p.2 < 0 then .error .voutNegative
  else
    match st.txOutCounts.lookup p.1 with
    | none => .error .unknownTransaction
    | some cnt =>
      if cnt ≤ p.2.toNat then .error .voutOutOfBounds
      else if (p.1, p.2.toNat) ∈ st.spentOutpoints then .error .expectedUnspent
      else
        let isLocked := (p.1, p.2.toNat) ∈ st.lockedCoins
        if fUnlock ∧ ¬ isLocked then .error .expectedLocked
        else if ¬ fUnlock ∧ isLocked then .error .alreadyLocked
        else .ok (p.1, p.2.toNat)

/-- The validation loop: "Create and validate the COutPoints first"
(rpcwallet.cpp:2760); the first failing entry throws. -/
def validateLockOutpoints (st : LockWalletState) (fUnlock : Bool) :
    List (Nat × Int) → Except LockunspentErr (List (Nat × Nat))
  | [] => .ok []
  | p :: ps =>
    match validateLockOutpoint st fUnlock p with
    | .error e => .error e
    | .ok o =>
      match validateLockOutpoints st fUnlock ps with
      | .error e => .error e
      | .ok os => .ok (o :: os)

/-- rpcwallet.cpp:2836-2840: "Atomically set (un)locked status for the
outputs" — `UnlockCoin` erases from the set, `LockCoin` inserts. -/
def applyLockUnlock (fUnlock : Bool) (st : LockWalletState)
    (outs : List (Nat × Nat)) : LockWalletState :=
  outs.foldl
    (fun s o =>
      if fUnlock then { s with lockedCoins := s.lockedCoins.filter (· ≠ o) }
      else { s with lockedCoins := o :: s.lockedCoins })
    st

/-- rpcwallet.cpp:2736-2843: the `lockunspent` handler (after JSON
type checking).  `params = none` is the omitted-list form (unlock-all
or no-op); the result pairs the final wallet state with the RPC
outcome, so error paths visibly leave the state untouched. -/
def lockunspent (st : LockWalletState) (fUnlock : Bool)
    (params : Option (List (Nat × Int))) (_permanent : Bool) :
    LockWalletState × Except LockunspentErr Bool :=
  match params with
  | none =>
    (if fUnlock then { st with lockedCoins := [] } else st, .ok true)
  | some ps =>
    match validateLockOutpoints st fUnlock ps with
    | .error e => (st, .error e)
    | .ok outs => (applyLockUnlock fUnlock st outs, .ok true)

/-- The disjunction of listed-outpoint defects the claim enumerates for
`lockunspent`: unknown wallet transaction, out-of-range vout, spent
output, not-locked when unlocking, already-locked when locking. -/
def badLockOutpoint (st : LockWalletState) (fUnlock : Bool) (p : Nat × Int) : Prop :=
  st.txOutCounts.lookup p.1 = none
  ∨ (∃ cnt, st.txOutCounts.lookup p.1 = some cnt ∧ cnt ≤ p.2.toNat)
  ∨ (p.1, p.2.toNat) ∈ st.spentOutpoints
  ∨ (fUnlock = true ∧ (p.1, p.2.toNat) ∉ st.lockedCoins)
  ∨ (fUnlock = false ∧ (p.1, p.2.toNat) ∈ st.lockedCoins)

/-! ## Concrete inputs used by witnesses and counterexamples -/

/-- A one-entry wallet whose only transaction sits at depth 1. -/
def depthOneWallet : List (Nat × WalletTxEntry) :=
  [(7, { depth := 1, inMempool := false })]

/-- An eligible original transaction for the bump-engine witness. -/
def witnessOriginalTx : OriginalTx :=
  { knownToWallet := true
    depth := 0
    signalsRbf := true
    hasDescendantSpend := false
    inputs := [(1, 0)]
    fee := 1000 }

/-- A bump request targeting 2000 with a 500 relay increment. -/
def witnessBumpRequest : BumpRequest :=
  { newTotalFee := 2000
    incrementalRelayFee := 500
    changeValue := 5000
    extraInputs := [] }

/-- Two recipient entries decoding to the same destination. -/
def duplicateDestItems : List RecipientInput :=
  [{ decodedDest := some 7, amount := 5, subtractFee := false },
   { decodedDest := some 7, amount := 3, subtractFee := true }]

/-- Fund options carrying both a change address and a change type. -/
def conflictingChangeOptions : FundOptions :=
  { changeAddress := some (some 1), changeType := some (some 0) }

/-- A lock-wallet state knowing one two-output transaction. -/
def witnessLockState : LockWalletState :=
  { txOutCounts := [(1, 2)], spentOutpoints := [], lockedCoins := [] }

/-! # Theorems -/

/-! ## Helper lemmas -/

theorem abandonEligible_iff (e : WalletTxEntry) :
    AbandonTransactionEligible e = true ↔ (e.depth ≤ 0 ∧ e.inMempool = false) := by
  simp [AbandonTransactionEligible]

theorem walletpassphrase_ok_shape (crypted passEmpty passOk stakingOnly : Bool)
    (timeout now : Int) (st0 st1 : WalletLockState) (r : Int)
    (h : walletpassphrase crypted passEmpty passOk stakingOnly timeout now st0
        = .ok (st1, some r)) :
    st1.locked = false ∧ st1.relockTime = r := by
  unfold walletpassphrase at h
  split_ifs at h
  all_goals dsimp only at h
  all_goals split at h
  all_goals injection h with hpair
  all_goals injection hpair with hst hsome
  all_goals try exact Option.noConfusion hsome
  all_goals injection hsome with ht
  all_goals subst hst
  all_goals subst ht
  all_goals exact ⟨rfl, rfl⟩

theorem relockTimerFire_stale (captured : Int) (st : WalletLockState)
    (h : st.relockTime ≠ captured) : relockTimerFire captured st = st := by
  unfold relockTimerFire
  simp [h]

theorem SetFeeEstimateMode_error_code (cc : CoinControl) (em : Option FeeModeInput)
    (ep : Option Int) (e : RPCErrorCode)
    (h : SetFeeEstimateMode cc em ep = .error e) : e = .invalidParameter := by
  rcases em with _ | mi
  · unfold SetFeeEstimateMode at h
    dsimp only at h
    split_ifs at h <;> rcases ep with _ | amt <;> simp_all
  · rcases mi with m | _
    · unfold SetFeeEstimateMode at h
      dsimp only at h
      split_ifs at h <;> rcases ep with _ | amt <;> simp_all
    · unfold SetFeeEstimateMode at h
      simp_all

theorem bumpfeeParseOptions_error_code (cc : CoinControl) (opts : BumpfeeOptions)
    (e : RPCErrorCode) (h : bumpfeeParseOptions cc opts = .error e) :
    e = .invalidParameter := by
  unfold bumpfeeParseOptions at h
  rcases hold : opts.confTargetOld with _ | t1 <;>
    rcases hnew : opts.confTargetNew with _ | t2 <;>
    rcases hfr : opts.feeRate with _ | r <;>
    rw [hold, hnew, hfr] at h <;>
    dsimp only [Option.isSome] at h <;>
    split_ifs at h <;>
    first
      | exact SetFeeEstimateMode_error_code _ _ _ _ h
      | simp_all

/-! ## C1 — fee-bump invariant -/

/-- C1: whenever the bump engine succeeds on an eligible original and
the relay increment is positive, the replacement pays strictly more
than the original — at least one relay increment more — and carries
every input of the original. -/
theorem C1_fee_bump_invariant (orig : OriginalTx) (req : BumpRequest)
    (tx : ReplacementTx) (hinc : 0 < req.incrementalRelayFee)
    (h : CreateBumpTransaction orig req = .ok tx) :
    orig.fee < tx.fee
    ∧ orig.fee + req.incrementalRelayFee ≤ tx.fee
    ∧ ∀ i ∈ orig.inputs, i ∈ tx.inputs := by
  unfold CreateBumpTransaction at h
  split_ifs at h with h1 h2 h3 h4
  all_goals injection h with h
  subst h
  refine ⟨by dsimp only; omega, by dsimp only; omega, ?_⟩
  exact fun i hi => List.mem_append_left _ hi

/-- Witness for C1 at a concrete eligible original (fee 1000) bumped
to a total fee of 2000 with a 500-unit relay increment. -/
theorem C1_witness :
    witnessOriginalTx.fee < ({ inputs := [(1, 0)], fee := 2000 } : ReplacementTx).fee
    ∧ witnessOriginalTx.fee + witnessBumpRequest.incrementalRelayFee
        ≤ ({ inputs := [(1, 0)], fee := 2000 } : ReplacementTx).fee
    ∧ ∀ i ∈ witnessOriginalTx.inputs,
        i ∈ ({ inputs := [(1, 0)], fee := 2000 } : ReplacementTx).inputs :=
  C1_fee_bump_invariant witnessOriginalTx witnessBumpRequest
    { inputs := [(1, 0)], fee := 2000 } (by decide) (by rfl)

/-! ## C2 — bumpfee error taxonomy -/

/-- Claim C2, as stated, limits every `bumpfee` failure to the four
codes of `specBumpfeeErrorCodes`.  Counterexample: on a wallet with
private keys disabled, calling the `bumpfee` method without the
deprecated-RPC opt-in fails at rpcwallet.cpp:4226 with
`RPC_METHOD_DEPRECATED`, which is none of the four. -/
theorem C2_counterexample :
    bumpfee false bumpfeeDeprecatedEnv none [] = .error .methodDeprecated
    ∧ RPCErrorCode.methodDeprecated ∉ specBumpfeeErrorCodes := by
  refine ⟨rfl, ?_⟩
  decide

/-- C2 (amended): every failing `bumpfee` call returns one of
`InvalidAddressOrKey` (unknown txid), `InvalidRequest` (not
replaceable / already spent), `InvalidParameter` (bad rate/target
combination), `WalletError` (build/sign/commit failure),
`MethodDeprecated` (the non-PSBT method on a wallet with private keys
disabled, without the deprecated-RPC opt-in), `WalletUnlockNeeded`
(locked or staking-only-unlocked wallet), or `MiscError` (any other
bump-engine result). -/
theorem bumpfeeFinish_error_code (wantPsbt : Bool) (env : BumpfeeEnv)
    (cc : CoinControl) (kinds : List OutputKind) (e : RPCErrorCode)
    (h : bumpfeeFinish wantPsbt env cc kinds = .error e) :
    e ∈ bumpfeeReachableErrorCodes := by
  unfold bumpfeeFinish at h
  split_ifs at h
  all_goals try split at h
  all_goals first
    | (injection h with h2; subst h2; decide)
    | exact Except.noConfusion h

theorem C2_bumpfee_error_codes (wantPsbtMethod : Bool) (env : BumpfeeEnv)
    (options : Option BumpfeeOptions) (kinds : List OutputKind) (e : RPCErrorCode)
    (h : bumpfee wantPsbtMethod env options kinds = .error e) :
    e ∈ bumpfeeReachableErrorCodes := by
  unfold bumpfee at h
  split_ifs at h
  · injection h with h2
    subst h2
    decide
  · dsimp only at h
    split at h
    · rename_i e2 heq
      injection h with h2
      subst h2
      rcases options with _ | opts
      · exact absurd heq (by simp)
      · have hip := bumpfeeParseOptions_error_code _ opts _ heq
        subst hip
        decide
    · exact bumpfeeFinish_error_code _ env _ kinds e h

/-- Witness for C2 (amended) at the deprecated-path failure. -/
theorem C2_witness : RPCErrorCode.methodDeprecated ∈ bumpfeeReachableErrorCodes :=
  C2_bumpfee_error_codes false bumpfeeDeprecatedEnv none [] .methodDeprecated (by rfl)

/-! ## C3 — bump strategy choice -/

/-- Claim C3, as stated, asserts the engine picks the strategy "based
on which asset/output-type mix is present in the transaction".  The
dispatch at rpcwallet.cpp:4289-4295 reads only the wallet kind: two
calls over transactions with the identical output mix (a single
standard output, no confidential types) pick different strategies, and
the Particl-wallet call picks the total-fee strategy even though the
mix contains nothing that hurts per-byte estimation. -/
theorem C3_strategy_counterexample :
    chooseBumpStrategy true [OutputKind.standard] = BumpStrategy.totalFeeBump
    ∧ chooseBumpStrategy false [OutputKind.standard] = BumpStrategy.feerateBump
    ∧ chooseBumpStrategy true [OutputKind.standard]
        ≠ chooseBumpStrategy false [OutputKind.standard] := by
  refine ⟨rfl, rfl, ?_⟩
  decide

/-- C3 (amended): the engine chooses the total-fee-increase strategy
whenever the wallet is a Particl wallet and the feerate-increase
strategy otherwise; the choice is independent of the asset/output-type
mix of the transaction being bumped. -/
theorem C3_strategy_by_wallet_kind (isParticl : Bool)
    (kinds kinds2 : List OutputKind) :
    chooseBumpStrategy isParticl kinds = chooseBumpStrategy isParticl kinds2
    ∧ chooseBumpStrategy true kinds = BumpStrategy.totalFeeBump
    ∧ chooseBumpStrategy false kinds = BumpStrategy.feerateBump := by
  refine ⟨rfl, rfl, rfl⟩

/-! ## C4 — abandontransaction eligibility -/

/-- C4: for a transaction known to the wallet, abandoning fails with
the not-eligible error exactly when it is not the case that its depth
is ≤ 0 and it is absent from the mempool; in particular a transaction
at depth 1 fails with the not-eligible error. -/
theorem C4_abandon_not_eligible (wallet : List (Nat × WalletTxEntry))
    (txid : Nat) (e : WalletTxEntry) (h : wallet.lookup txid = some e) :
    (abandontransaction wallet txid = .error .notEligible
      ↔ ¬ (e.depth ≤ 0 ∧ e.inMempool = false))
    ∧ (e.depth = 1 → abandontransaction wallet txid = .error .notEligible) := by
  have hres : abandontransaction wallet txid
      = if AbandonTransactionEligible e then Except.ok ()
        else Except.error AbandonErr.notEligible := by
    unfold abandontransaction
    rw [h]
  constructor
  · by_cases hel : AbandonTransactionEligible e = true
    · have hprop := (abandonEligible_iff e).mp hel
      rw [hres, if_pos hel]
      exact ⟨fun hc => Except.noConfusion hc, fun hc => absurd hprop hc⟩
    · have hprop : ¬ (e.depth ≤ 0 ∧ e.inMempool = false) :=
        fun hc => hel ((abandonEligible_iff e).mpr hc)
      rw [hres, if_neg hel]
      exact iff_of_true rfl hprop
  · intro hdepth
    have hel : ¬ AbandonTransactionEligible e = true := by
      rw [abandonEligible_iff]
      intro hc
      omega
    rw [hres, if_neg hel]

/-- Witness for C4 at a depth-1 wallet transaction. -/
theorem C4_witness :
    (abandontransaction depthOneWallet 7 = .error .notEligible
      ↔ ¬ ((1 : Int) ≤ 0 ∧ false = false))
    ∧ ((1 : Int) = 1 → abandontransaction depthOneWallet 7 = .error .notEligible) :=
  C4_abandon_not_eligible depthOneWallet 7
    { depth := 1, inMempool := false } rfl

/-! ## C5 — explicit fee rate bounds in settxfee -/

/-- C5: an explicitly set fee rate is stored only when it is within
the relay-minimum/wallet-maximum bounds; every rejection carries
`InvalidParameter`; and a rate of exactly zero is accepted as the
automatic-selection sentinel regardless of the bounds. -/
theorem C5_settxfee_bounds (nAmount relayMinFee walletMinFee maxTxFee : Int) :
    (∀ r, settxfee nAmount relayMinFee walletMinFee maxTxFee = .ok r →
      r = nAmount ∧ (nAmount = 0 ∨ (relayMinFee ≤ nAmount ∧ nAmount ≤ maxTxFee)))
    ∧ (∀ e, settxfee nAmount relayMinFee walletMinFee maxTxFee = .error e →
      e = .invalidParameter)
    ∧ (nAmount = 0 → settxfee nAmount relayMinFee walletMinFee maxTxFee = .ok 0) := by
  unfold settxfee
  refine ⟨?_, ?_, ?_⟩
  · intro r hr
    split_ifs at hr <;> simp_all
  · intro e he
    split_ifs at he <;> simp_all
  · intro h0
    simp [h0]

/-- Witness for C5: rate 5 with relay minimum 2, wallet minimum 3,
maximum 9 is accepted and lies within the bounds. -/
theorem C5_witness :
    (5 : Int) = 5 ∧ ((5 : Int) = 0 ∨ ((2 : Int) ≤ 5 ∧ (5 : Int) ≤ 9)) :=
  (C5_settxfee_bounds 5 2 3 9).1 5 (by rfl)

/-! ## C6 — coin selection is deterministic -/

theorem shuffleInsert_perm (rest : List Recipient) :
    ∀ (s : Nat) (acc : List Recipient),
      (shuffleInsert s acc rest).Perm (acc ++ rest) := by
  induction rest with
  | nil =>
    intro s acc
    simp [shuffleInsert]
  | cons x xs ih =>
    intro s acc
    have hle : s % (acc.length + 1) ≤ acc.length :=
      Nat.le_of_lt_succ (Nat.mod_lt _ (Nat.succ_pos _))
    have hstep : shuffleInsert s acc (x :: xs)
        = shuffleInsert (fastRandomNext s) (acc.insertIdx (s % (acc.length + 1)) x) xs := rfl
    rw [hstep]
    have h1 := ih (fastRandomNext s) (acc.insertIdx (s % (acc.length + 1)) x)
    have h2 : ((acc.insertIdx (s % (acc.length + 1)) x) ++ xs).Perm ((x :: acc) ++ xs) :=
      (List.perm_insertIdx x acc hle).append_right xs
    have h3 : ((x :: acc) ++ xs).Perm (acc ++ x :: xs) := by
      simpa using List.perm_middle.symm
    exact (h1.trans h2).trans h3

theorem shuffleList_perm (s : Nat) (xs : List Recipient) :
    (shuffleList s xs).Perm xs := by
  simpa [shuffleList] using shuffleInsert_perm xs s []

theorem CreateTransactionModel_congr_perm (coins : List Coin) (feeRatePerK : Int)
    (r1 r2 : List Recipient) (hperm : r1.Perm r2) :
    CreateTransactionModel coins r1 feeRatePerK
      = CreateTransactionModel coins r2 feeRatePerK := by
  unfold CreateTransactionModel
  rw [List.Perm.sum_eq (hperm.map (fun r => r.amount)), hperm.length_eq]

/-- C6: for a fixed coin snapshot, fee rate, and recipient list, two
runs of the send path with different random draws (the recipient
shuffle) select the same inputs and fee, and two runs of the funding
path with different random draws (the change-position placement)
select the same inputs and fee. -/
theorem C6_selection_deterministic (coins : List Coin) (feeRatePerK : Int)
    (recipients : List Recipient) (changePosition : Option Nat) (s1 s2 : Nat) :
    SendMoneySelect coins feeRatePerK s1 recipients
      = SendMoneySelect coins feeRatePerK s2 recipients
    ∧ (FundTransactionSelect coins recipients feeRatePerK changePosition s1).map
        (fun r => (r.1, r.2.1))
      = (FundTransactionSelect coins recipients feeRatePerK changePosition s2).map
        (fun r => (r.1, r.2.1)) := by
  constructor
  · unfold SendMoneySelect
    exact CreateTransactionModel_congr_perm coins feeRatePerK _ _
      ((shuffleList_perm s1 recipients).trans (shuffleList_perm s2 recipients).symm)
  · unfold FundTransactionSelect
    rcases CreateTransactionModel coins recipients feeRatePerK with _ | ⟨sel, fee⟩
    · rfl
    · rfl

/-! ## C7 — output/policy validation before mutation -/

theorem ParseRecipientsGo_ok_distinct :
    ∀ (items : List RecipientInput) (seen : List Nat) (l : List Recipient),
      ParseRecipientsGo seen items = .ok l →
      (items.map (fun r => r.decodedDest)).Nodup
      ∧ ∀ r ∈ items, ∀ d, r.decodedDest = some d → d ∉ seen := by
  intro items
  induction items with
  | nil =>
    intro seen l _
    simp
  | cons r rest ih =>
    intro seen l h
    unfold ParseRecipientsGo at h
    rcases hd : r.decodedDest with _ | d
    · rw [hd] at h
      exact absurd h (by simp)
    · rw [hd] at h
      dsimp only at h
      split_ifs at h with hmem
      split at h
      · exact absurd h (by simp)
      · rename_i tl htl
        obtain ⟨hnd, hseen⟩ := ih (d :: seen) tl htl
        refine ⟨?_, ?_⟩
        · simp only [List.map_cons, List.nodup_cons]
          refine ⟨?_, hnd⟩
          intro hcontra
          rw [hd] at hcontra
          obtain ⟨r2, hr2mem, hr2d⟩ := List.mem_map.mp hcontra
          exact (hseen r2 hr2mem d hr2d) (List.mem_cons_self d seen)
        · intro r2 hr2 d2 hd2
          rcases List.mem_cons.mp hr2 with heq | hmem2
          · subst heq
            rw [hd] at hd2
            injection hd2 with hd2
            subst hd2
            exact hmem
          · intro hin
            exact (hseen r2 hmem2 d2 hd2) (List.mem_cons_of_mem d hin)

theorem ParseRecipientsGo_error_duplicated :
    ∀ (items : List RecipientInput) (seen : List Nat) (e : ParseRecipientsErr),
      (∀ r ∈ items, r.decodedDest.isSome) →
      ParseRecipientsGo seen items = .error e → e = .duplicatedAddress := by
  intro items
  induction items with
  | nil =>
    intro seen e _ h
    simp [ParseRecipientsGo] at h
  | cons r rest ih =>
    intro seen e hvalid h
    obtain ⟨d, hd⟩ := Option.isSome_iff_exists.mp (hvalid r (List.mem_cons_self r rest))
    unfold ParseRecipientsGo at h
    rw [hd] at h
    dsimp only at h
    split_ifs at h with hmem
    · injection h with h2
      exact h2.symm
    · split at h
      · rename_i e2 he2
        injection h with h2
        subst h2
        exact ih (d :: seen) e2
          (fun r2 hr2 => hvalid r2 (List.mem_cons_of_mem r hr2)) he2
      · exact absurd h (by simp)

/-- C7: a recipient list holding a duplicated (validly decoded)
destination is rejected by `ParseRecipients` with the
`InvalidParameter` error code, and a funding request carrying both a
change address and a change type is rejected by `FundTransaction` with
`InvalidParameter` — in both cases before any wallet state is
mutated (`ParseRecipients` is pure; `FundTransactionRPC` returns the
input state unchanged). -/
theorem C7_validation_rejects
    (items : List RecipientInput)
    (wf : FundWalletState → CoinControl → Option (FundWalletState × Int))
    (st : FundWalletState) (opts : FundOptions) (nOutputs : Nat) (a : Nat)
    (hvalid : ∀ r ∈ items, r.decodedDest.isSome)
    (hdup : ¬ (items.map (fun r => r.decodedDest)).Nodup)
    (hca : opts.changeAddress = some (some a))
    (hct : opts.changeType.isSome) :
    (∃ e, ParseRecipients items = .error e
      ∧ rpcCodeOfParseRecipientsErr e = .invalidParameter)
    ∧ FundTransactionRPC wf st (some opts) nOutputs
        = (st, .error .invalidParameter) := by
  constructor
  · rcases hres : ParseRecipients items with e | l
    · have hdupe := ParseRecipientsGo_error_duplicated items [] e hvalid hres
      subst hdupe
      exact ⟨.duplicatedAddress, rfl, rfl⟩
    · exact absurd (ParseRecipientsGo_ok_distinct items [] l hres).1 hdup
  · obtain ⟨ct, hctv⟩ := Option.isSome_iff_exists.mp hct
    rcases hai : opts.addInputs with _ | b <;>
      simp [FundTransactionRPC, hai, hca, hctv]

/-- Witness for C7: two entries decoding to destination 7, and fund
options carrying change address 1 together with a change type. -/
theorem C7_witness :
    (∃ e, ParseRecipients duplicateDestItems = .error e
      ∧ rpcCodeOfParseRecipientsErr e = .invalidParameter)
    ∧ FundTransactionRPC (fun s _ => some (s, 0)) { lockedCoins := [] }
        (some conflictingChangeOptions) 2
        = ({ lockedCoins := [] }, .error .invalidParameter) :=
  C7_validation_rejects duplicateDestItems (fun s _ => some (s, 0))
    { lockedCoins := [] } conflictingChangeOptions 2 1
    (by decide) (by decide) rfl rfl

/-! ## C8 — the "used" balance tier is a difference, not stored state -/

/-- C8: with the avoid-reuse flag active, both branches of
`getbalances` report the "used" tier of each affected privacy class
(plain and blinded) as full balance minus reuse-filtered balance, and
omit the tier when the flag is off. -/
theorem C8_used_tier_is_difference (b : Bool)
    (g : Bool → CHDWalletBalances) (gb : Bool → WalletBalance) :
    ((getbalancesMineParticl b g).used =
      if b then
        some (((g false).nPart + (g false).nPartUnconf)
          - ((g true).nPart + (g true).nPartUnconf))
      else none)
    ∧ ((getbalancesMineParticl b g).blindUsed =
      if b then
        some (((g false).nBlind + (g false).nBlindUnconf)
          - ((g true).nBlind + (g true).nBlindUnconf))
      else none)
    ∧ ((getbalancesMineBtc b gb).used =
      if b then
        some (((gb false).mineTrusted + (gb false).mineUntrustedPending)
          - ((gb true).mineTrusted + (gb true).mineUntrustedPending))
      else none) := by
  unfold getbalancesMineParticl getbalancesMineBtc
  cases b <;> simp <;> refine ⟨by ring, by ring, by ring⟩

/-! ## C9 — stale relock timers never lock the wallet -/

/-- C9: each unlock stamps the scheduled relock time and the timer
callback no-ops unless its stamped value still equals the wallet's
current relock time; hence in an unlock→relock→unlock trace the timer
of the first unlock (stamp `r1`) cannot lock the wallet once a second
unlock has stamped a different relock time `r2`. -/
theorem C9_stale_timer_cannot_lock
    (c1 pe1 pk1 so1 : Bool) (t1 now1 : Int) (st0 st1 : WalletLockState) (r1 : Int)
    (c2 pe2 pk2 so2 : Bool) (t2 now2 : Int) (stMid st2 : WalletLockState) (r2 : Int)
    (h1 : walletpassphrase c1 pe1 pk1 so1 t1 now1 st0 = .ok (st1, some r1))
    (h2 : walletpassphrase c2 pe2 pk2 so2 t2 now2 stMid = .ok (st2, some r2))
    (hne : r1 ≠ r2) :
    relockTimerFire r1 st2 = st2 ∧ (relockTimerFire r1 st2).locked = false := by
  obtain ⟨hlock, hrt⟩ :=
    walletpassphrase_ok_shape c2 pe2 pk2 so2 t2 now2 stMid st2 r2 h2
  have hstale : st2.relockTime ≠ r1 := by
    rw [hrt]
    exact fun hc => hne hc.symm
  have hfix := relockTimerFire_stale r1 st2 hstale
  exact ⟨hfix, by rw [hfix, hlock]⟩

/-- Witness for C9: unlock at time 100 for 60 seconds (stamp 160),
unlock again at time 110 for 60 seconds (stamp 170); firing the stale
160-stamped timer leaves the wallet unlocked. -/
theorem C9_witness :
    relockTimerFire 160 { locked := false, relockTime := 170 }
      = { locked := false, relockTime := 170 }
    ∧ (relockTimerFire 160 { locked := false, relockTime := 170 }).locked = false :=
  C9_stale_timer_cannot_lock true false true false 60 100
    { locked := true, relockTime := 0 } { locked := false, relockTime := 160 } 160
    true false true false 60 110
    { locked := false, relockTime := 160 } { locked := false, relockTime := 170 } 170
    (by rfl) (by rfl) (by decide)

/-! ## C10 — lockunspent validates everything before mutating -/

theorem validateLockOutpoint_ok_not_bad (st : LockWalletState) (fUnlock : Bool)
    (p : Nat × Int) (o : Nat × Nat)
    (h : validateLockOutpoint st fUnlock p = .ok o) :
    ¬ badLockOutpoint st fUnlock p := by
  intro hbad
  unfold validateLockOutpoint at h
  rcases hcnt : List.lookup p.1 st.txOutCounts with _ | cnt
  · rw [hcnt] at h
    dsimp only at h
    split_ifs at h
  · rw [hcnt] at h
    dsimp only at h
    split_ifs at h with hneg hle hspent hul hlk
    rcases hbad with hb | hb | hb | hb | hb
    · rw [hcnt] at hb
      exact Option.noConfusion hb
    · obtain ⟨c2, hc2, hle2⟩ := hb
      rw [hcnt] at hc2
      injection hc2 with hc2
      subst hc2
      exact hle hle2
    · exact hspent hb
    · exact hul ⟨hb.1, hb.2⟩
    · refine hlk ⟨?_, hb.2⟩
      rw [hb.1]
      simp

theorem validateLockOutpoints_error_of_bad (st : LockWalletState) (fUnlock : Bool) :
    ∀ (ps : List (Nat × Int)), (∃ p ∈ ps, badLockOutpoint st fUnlock p) →
      ∃ e, validateLockOutpoints st fUnlock ps = .error e := by
  intro ps
  induction ps with
  | nil =>
    rintro ⟨p, hp, _⟩
    exact absurd hp (List.not_mem_nil p)
  | cons q qs ih =>
    rintro ⟨p, hp, hbad⟩
    rcases hv : validateLockOutpoint st fUnlock q with e | o
    · exact ⟨e, by simp [validateLockOutpoints, hv]⟩
    · rcases List.mem_cons.mp hp with heq | hmem
      · subst heq
        exact absurd hbad (validateLockOutpoint_ok_not_bad st fUnlock p o hv)
      · obtain ⟨e, he⟩ := ih ⟨p, hmem, hbad⟩
        refine ⟨e, ?_⟩
        unfold validateLockOutpoints
        rw [hv, he]

/-- C10: whenever the explicit output list handed to `lockunspent`
holds any outpoint that is unknown to the wallet, has an out-of-range
vout, is spent, is not currently locked while unlocking, or is already
locked while locking, the call fails with an error carried as
`InvalidParameter` and the wallet state — its locked-coin set
included — is returned exactly as it came in: no lock or unlock is
applied. -/
theorem C10_lockunspent_fail_fast (st : LockWalletState) (fUnlock : Bool)
    (ps : List (Nat × Int)) (permanent : Bool)
    (hbad : ∃ p ∈ ps, badLockOutpoint st fUnlock p) :
    ∃ e, lockunspent st fUnlock (some ps) permanent = (st, .error e)
      ∧ rpcCodeOfLockunspentErr e = .invalidParameter := by
  obtain ⟨e, he⟩ := validateLockOutpoints_error_of_bad st fUnlock ps hbad
  refine ⟨e, ?_, rfl⟩
  unfold lockunspent
  dsimp only
  rw [he]

/-- Witness for C10: locking `{(1,0), (2,0)}` when the wallet only
knows transaction 1 fails and leaves the state unchanged. -/
theorem C10_witness :
    ∃ e, lockunspent witnessLockState false (some [(1, 0), (2, 0)]) false
        = (witnessLockState, .error e)
      ∧ rpcCodeOfLockunspentErr e = .invalidParameter :=
  C10_lockunspent_fail_fast witnessLockState false [(1, 0), (2, 0)] false
    ⟨(2, 0), by simp, Or.inl rfl⟩

end GhostWallet
